import Mathlib

/-!
Verification development for the `codex-usage` tracker
(`src/codex_usage_tracker/codex_usage_tracker.py`).

The Python source is shallowly embedded as executable Lean definitions:

* JSON values decoded from one log line are modeled by `JVal` (an object is an
  association list in key order).  A JSON `null` stored under a key behaves
  exactly like a missing key through Python's `dict.get`, and every helper
  below treats `some .null` accordingly.
* Python `int` is modeled by `Int`, Python `float` by `Rat` (the only float
  arithmetic in the program, `used_percent`, is exact on the inputs the claims
  mention, e.g. `t / (2*t) * 100 = 50` holds exactly in IEEE-754 as well).
* `datetime` instants are modeled by `Int` (epoch seconds).  The concrete
  ISO-8601 text syntax of `datetime.fromisoformat` is not re-implemented;
  a timestamp string is modeled by the instant it denotes, written in decimal
  (`isoInstant`).  Parsability, equality and ordering of instants — all the
  spec talks about — are preserved; timezone normalization collapses because
  instants are absolute.
* Python's `int(...)`/`float(...)` conversions of numeric *strings* are not
  modeled (a string is treated as unconvertible).  No claim involves numeric
  strings in a numeric field.
* The two clock reads (`datetime.now` at the start of `generate_snapshot`,
  line 225, and the per-event fallback inside `_parse_session_file`,
  line 197) are explicit parameters `now` and `parseNow`.
* File-system access is modeled by `SessionFile`: the discovered path, its
  stem, a readability flag (an `OSError` yields `none`, line 206) and the
  decoded lines (`none` = blank line or `json.JSONDecodeError`, skipped at
  lines 158-165).  Lines whose JSON value is not an object are outside this
  model (the source would raise an uncaught `AttributeError` on them).
-/

/-- Model of a decoded JSON value (the result of `json.loads` on one line). -/
inductive JVal where
  | null
  | bool (b : Bool)
  | int (n : Int)
  | rat (q : Rat)
  | str (s : String)
  | obj (fields : List (String × JVal))
  | arr (xs : List JVal)

/-- A JSON object: association list of fields in key order (keys unique). -/
abbrev JObj := List (String × JVal)

/-- Python `dict.get`: first binding of the key, `none` when absent. -/
def jGet : JObj → String → Option JVal
  | [], _ => none
  | (k, v) :: rest, key => if k = key then some v else jGet rest key

/-- Python truthiness of a decoded JSON value. -/
def JVal.truthy : JVal → Bool
  | .null => false
  | .bool b => b
  | .int n => n != 0
  | .rat q => q != 0
  | .str s => s != ""
  | .obj fields => !fields.isEmpty
  | .arr xs => !xs.isEmpty

/-- Python `==` between a decoded value and a string literal (used for the
`type` discriminators): true exactly for an equal string. -/
def optIsStr (v : Option JVal) (s : String) : Bool :=
  match v with
  | some (.str t) => t == s
  | _ => false

/-- Python `str(value)` for the values that can appear here.  The repr of
dict/list/float values is not modeled precisely (no claim depends on it). -/
def pyStr : JVal → String
  | .null => "None"
  | .bool b => if b then "True" else "False"
  | .int n => toString n
  | .rat q => toString q
  | .str s => s
  | .obj _ => "dict-repr"
  | .arr _ => "list-repr"

/-- Source `_safe_dict` (line 588): the value if it is a dict, else `{}`. -/
def safe_dict (v : Option JVal) : JObj :=
  match v with
  | some (.obj fields) => fields
  | _ => []

/-- Source `_safe_str` (line 592): `str(value)` unless the value is `None`. -/
def safe_str (v : Option JVal) : Option String :=
  match v with
  | some .null | none => none
  | some v => some (pyStr v)

/-- Source `_safe_int` (lines 596-604): `int(value)` with a default for
`None` and unconvertible values.  Note that a negative integer in the log is
passed through unchanged.  (Numeric strings are modeled as unconvertible.) -/
def safe_int (v : Option JVal) (default : Int := 0) : Int :=
  match v with
  | some .null | none => default
  | some (.bool b) => if b then 1 else 0
  | some (.int n) => n
  | some (.rat q) => q.num.tdiv q.den
  | some (.str _) => default
  | some (.obj _) => default
  | some (.arr _) => default

/-- Source `_safe_int_or_none` (lines 607-613). -/
def safe_int_or_none (v : Option JVal) : Option Int :=
  match v with
  | some .null | none => none
  | some (.bool b) => some (if b then 1 else 0)
  | some (.int n) => some n
  | some (.rat q) => some (q.num.tdiv q.den)
  | some (.str _) => none
  | some (.obj _) => none
  | some (.arr _) => none

/-- Source `_safe_float_or_none` (lines 616-622), floats modeled by `Rat`. -/
def safe_float_or_none (v : Option JVal) : Option Rat :=
  match v with
  | some .null | none => none
  | some (.bool b) => some (if b then 1 else 0)
  | some (.int n) => some (n : Rat)
  | some (.rat q) => some q
  | some (.str _) => none
  | some (.obj _) => none
  | some (.arr _) => none

/-- Decimal digit of a character, if any. -/
def decDigit? (c : Char) : Option Nat :=
  if c = '0' then some 0 else if c = '1' then some 1 else if c = '2' then some 2
  else if c = '3' then some 3 else if c = '4' then some 4 else if c = '5' then some 5
  else if c = '6' then some 6 else if c = '7' then some 7 else if c = '8' then some 8
  else if c = '9' then some 9 else none

/-- Accumulating decimal reader over the characters of a timestamp string. -/
def parseDigits : List Char → Nat → Option Nat
  | [], acc => some acc
  | c :: rest, acc =>
    match decDigit? c with
    | some d => parseDigits rest (acc * 10 + d)
    | none => none

/-- Instant denoted by a timestamp string.  The ISO-8601 surface syntax of
`datetime.fromisoformat` (line 631) is modeled by its denotation: a decimal
string denotes that epoch second, anything else is unparsable. -/
def isoInstant (s : String) : Option Int :=
  match s.data with
  | [] => none
  | '-' :: rest => (parseDigits rest 0).map (fun n => -(n : Int))
  | cs => (parseDigits cs 0).map (fun n => (n : Int))

/-- Source `_parse_iso8601` (lines 625-637): `None` unless the value is a
nonempty string denoting an instant; results are absolute UTC instants. -/
def parse_iso8601 (v : Option JVal) : Option Int :=
  match v with
  | some (.str s) => if s == "" then none else isoInstant s
  | _ => none

/-- Source dataclass `TokenUsage` (lines 35-89): five Python-`int` fields. -/
structure TokenUsage where
  input_tokens : Int := 0
  cached_input_tokens : Int := 0
  output_tokens : Int := 0
  reasoning_output_tokens : Int := 0
  total_tokens : Int := 0
deriving DecidableEq

/-- The all-zero counter `TokenUsage()`. -/
def TokenUsage.zero : TokenUsage := {}

/-- Source `TokenUsage.from_mapping` (lines 43-53). -/
def TokenUsage.from_mapping (value : Option JVal) : TokenUsage :=
  match value with
  | some (.obj m) =>
    { input_tokens := safe_int (jGet m "input_tokens"),
      cached_input_tokens := safe_int (jGet m "cached_input_tokens"),
      output_tokens := safe_int (jGet m "output_tokens"),
      reasoning_output_tokens := safe_int (jGet m "reasoning_output_tokens"),
      total_tokens := safe_int (jGet m "total_tokens") }
  | _ => TokenUsage.zero

/-- Source `TokenUsage.add` (lines 55-60), as a pure fieldwise sum. -/
def TokenUsage.add (a other : TokenUsage) : TokenUsage :=
  { input_tokens := a.input_tokens + other.input_tokens,
    cached_input_tokens := a.cached_input_tokens + other.cached_input_tokens,
    output_tokens := a.output_tokens + other.output_tokens,
    reasoning_output_tokens := a.reasoning_output_tokens + other.reasoning_output_tokens,
    total_tokens := a.total_tokens + other.total_tokens }

/-- Source `TokenUsage.delta` (lines 62-70): fieldwise `max(0, self - previous)`. -/
def TokenUsage.delta (a previous : TokenUsage) : TokenUsage :=
  { input_tokens := max 0 (a.input_tokens - previous.input_tokens),
    cached_input_tokens := max 0 (a.cached_input_tokens - previous.cached_input_tokens),
    output_tokens := max 0 (a.output_tokens - previous.output_tokens),
    reasoning_output_tokens := max 0 (a.reasoning_output_tokens - previous.reasoning_output_tokens),
    total_tokens := max 0 (a.total_tokens - previous.total_tokens) }

/-- Source `TokenUsage.has_activity` (lines 81-89): some field is positive. -/
def TokenUsage.has_activity (a : TokenUsage) : Bool :=
  a.input_tokens > 0 || a.cached_input_tokens > 0 || a.output_tokens > 0 ||
    a.reasoning_output_tokens > 0 || a.total_tokens > 0

/-- Some field of the counter is nonzero (the wording of the spec claims;
compare with `has_activity`, which asks for a *positive* field). -/
def TokenUsage.hasNonzeroField (a : TokenUsage) : Bool :=
  a.input_tokens != 0 || a.cached_input_tokens != 0 || a.output_tokens != 0 ||
    a.reasoning_output_tokens != 0 || a.total_tokens != 0

/-- All five fields are non-negative. -/
def TokenUsage.Nonneg (a : TokenUsage) : Prop :=
  0 ≤ a.input_tokens ∧ 0 ≤ a.cached_input_tokens ∧ 0 ≤ a.output_tokens ∧
    0 ≤ a.reasoning_output_tokens ∧ 0 ≤ a.total_tokens

/-- Fieldwise order on counters. -/
def TokenUsage.le (a b : TokenUsage) : Prop :=
  a.input_tokens ≤ b.input_tokens ∧ a.cached_input_tokens ≤ b.cached_input_tokens ∧
    a.output_tokens ≤ b.output_tokens ∧ a.reasoning_output_tokens ≤ b.reasoning_output_tokens ∧
    a.total_tokens ≤ b.total_tokens

instance (a : TokenUsage) : Decidable a.Nonneg := by
  unfold TokenUsage.Nonneg
  infer_instance

instance (a b : TokenUsage) : Decidable (a.le b) := by
  unfold TokenUsage.le
  infer_instance

/-- Source dataclass `ParsedSession` (lines 92-102). -/
structure ParsedSession where
  session_id : String
  file_path : String
  started_at : Option Int
  last_event_at : Option Int
  cli_version : Option String
  totals : TokenUsage
  events : List (Int × TokenUsage)
  latest_rate_limits : Option JObj
  rate_limits_timestamp : Option Int

/-- One discovered session log file: its path, stem, whether reading it
succeeds (an `OSError` makes `_parse_session_file` return `None`, line 206),
and its decoded lines (`none` = blank or malformed line, skipped). -/
structure SessionFile where
  stem : String
  path : String
  readable : Bool
  lines : List (Option JObj)

/-- Loop state of `_parse_session_file` (lines 143-153). -/
structure ParseState where
  session_id : String
  started_at : Option Int
  last_event_at : Option Int
  cli_version : Option String
  totals : TokenUsage
  prev_totals : Option TokenUsage
  events : List (Int × TokenUsage)
  latest_rate_limits : Option JObj
  rate_limits_timestamp : Option Int

/-- Lines 178-179 and 185-186: keep the newer of the current `last_event_at`
and the record's timestamp (a missing timestamp changes nothing). -/
def updateLast (cur timestamp : Option Int) : Option Int :=
  match timestamp with
  | none => cur
  | some t =>
    match cur with
    | none => some t
    | some u => if t > u then some t else cur

/-- Lines 170-172: the record's payload dict, `{}` unless it is a dict. -/
def payload_of (item : JObj) : JObj :=
  safe_dict (jGet item "payload")

/-- Lines 188-191: the cumulative counter embedded in a `token_count` record. -/
def record_usage (item : JObj) : TokenUsage :=
  TokenUsage.from_mapping (jGet (safe_dict (jGet (payload_of item) "info")) "total_token_usage")

/-- Line 193: the delta of the new cumulative reading against the cursor;
the first observation is taken as already incremental. -/
def computed_delta (st : ParseState) (total_usage : TokenUsage) : TokenUsage :=
  match st.prev_totals with
  | none => total_usage
  | some prev => total_usage.delta prev

/-- Lines 192-199: cumulative-counter handling of one `token_count` record.
`timestamp` is the record's parsed timestamp, `parseNow` the clock fallback
used when it is absent (line 197). -/
def token_usage_step (parseNow : Int) (timestamp : Option Int) (total_usage : TokenUsage)
    (st : ParseState) : ParseState :=
  if total_usage.has_activity then
    let delta := computed_delta st total_usage
    let st' := { st with prev_totals := some total_usage }
    if delta.has_activity then
      { st' with
        events := st'.events ++ [(timestamp.getD parseNow, delta)],
        totals := st'.totals.add delta }
    else st'
  else st

/-- Lines 201-204: remember an embedded rate-limit dict as the latest one. -/
def rate_limits_step (timestamp : Option Int) (rl : Option JVal) (st : ParseState) : ParseState :=
  match rl with
  | some (.obj fields) =>
    { st with
      latest_rate_limits := some fields,
      rate_limits_timestamp :=
        match timestamp with
        | some t => some t
        | none => st.rate_limits_timestamp }
  | _ => st

/-- Loop body of `_parse_session_file` (lines 157-204) on one decoded line. -/
def parse_line (parseNow : Int) (st : ParseState) (line : Option JObj) : ParseState :=
  match line with
  | none => st
  | some item =>
    let timestamp := parse_iso8601 (jGet item "timestamp")
    let payload := payload_of item
    if optIsStr (jGet item "type") "session_meta" then
      { st with
        session_id :=
          match jGet payload "id" with
          | some v => if v.truthy then pyStr v else st.session_id
          | none => st.session_id,
        started_at :=
          match parse_iso8601 (jGet payload "timestamp") with
          | some t => some t
          | none =>
            match timestamp with
            | some t => some t
            | none => st.started_at,
        cli_version :=
          match safe_str (jGet payload "cli_version") with
          | some s => if s != "" then some s else st.cli_version
          | none => st.cli_version,
        last_event_at := updateLast st.last_event_at timestamp }
    else if optIsStr (jGet item "type") "event_msg" && optIsStr (jGet payload "type") "token_count" then
      rate_limits_step timestamp (jGet payload "rate_limits")
        (token_usage_step parseNow timestamp (record_usage item)
          { st with last_event_at := updateLast st.last_event_at timestamp })
    else st

/-- Initial loop state (lines 143-153): the session id defaults to the stem. -/
def initState (f : SessionFile) : ParseState :=
  { session_id := f.stem, started_at := none, last_event_at := none, cli_version := none,
    totals := TokenUsage.zero, prev_totals := none, events := [],
    latest_rate_limits := none, rate_limits_timestamp := none }

/-- Source `UsageTracker._parse_session_file` (lines 142-222). -/
def parse_session_file (parseNow : Int) (f : SessionFile) : Option ParsedSession :=
  if f.readable then
    let st := f.lines.foldl (parse_line parseNow) (initState f)
    if st.events.isEmpty && st.totals.total_tokens == 0 then none
    else some
      { session_id := st.session_id, file_path := f.path, started_at := st.started_at,
        last_event_at := st.last_event_at, cli_version := st.cli_version, totals := st.totals,
        events := st.events, latest_rate_limits := st.latest_rate_limits,
        rate_limits_timestamp := st.rate_limits_timestamp }
  else none

/-- Stable insertion used to model Python's `list.sort` / `sorted`: walk past
every element that must strictly precede `a` under `bef`, so that elements
comparing equal keep their original relative order.  Since a stable sort's
output is uniquely determined by the comparator and the input order, this
models CPython's timsort exactly. -/
def pyInsert (bef : α → α → Bool) (a : α) : List α → List α
  | [] => [a]
  | b :: l => if bef b a then b :: pyInsert bef a l else a :: b :: l

/-- Stable sort by `bef` (see `pyInsert`). -/
def pySort (bef : α → α → Bool) : List α → List α
  | [] => []
  | a :: l => pyInsert bef a (pySort bef l)

/-- Python `sorted(l, key=k)`: stable ascending sort by an integer key. -/
def pySortAscBy (k : α → Int) : List α → List α :=
  pySort (fun x y => k x < k y)

/-- Python `sorted(l, key=k, reverse=True)`: stable descending sort. -/
def pySortDescBy (k : α → Int) : List α → List α :=
  pySort (fun x y => k x > k y)

/-- One step of Python `max(l, key=k)`: a candidate replaces the current
maximum only when its key is strictly greater. -/
def py_max_step (k : α → Int) (acc : Option α) (x : α) : Option α :=
  match acc with
  | none => some x
  | some c => if k x > k c then some x else acc

/-- Python `max(l, key=k)`: the first element with the maximal key. -/
def pyMaxBy (k : α → Int) (l : List α) : Option α :=
  l.foldl (py_max_step k) none

/-- Configuration values as resolved by `UsageTracker.__init__`
(lines 111-119): window minutes with their defaults (300 and 10080,
lines 30-31) and the optional token limits. -/
structure TrackerConfig where
  session_window_minutes : Int := 300
  week_window_minutes : Int := 10080
  session_limit_tokens : Option Int := none
  week_limit_tokens : Option Int := none

/-- Fieldwise sum of a list of events (the body of `sum_window` and of the
all-time accumulation, lines 251-261). -/
def sum_usage (events : List (Int × TokenUsage)) : TokenUsage :=
  events.foldl (fun total e => total.add e.2) TokenUsage.zero

/-- Source `sum_window` (lines 251-257): fieldwise sum of every event whose
timestamp is at least `now` minus the window length. -/
def sum_window (now : Int) (all_events : List (Int × TokenUsage)) (minutes : Int) : TokenUsage :=
  sum_usage (all_events.filter (fun e => decide (e.1 ≥ now - minutes * 60)))

/-- Lines 230-242: events of all parsed sessions concatenated in file order. -/
def all_events_of (sessions : List ParsedSession) : List (Int × TokenUsage) :=
  sessions.foldl (fun acc s => acc ++ s.events) []

/-- One step of the lines-244-247 latest-rate-limits reduction.  A session
enters the comparison only when its stored rate-limit dict is truthy (present
and nonempty) and it has a timestamp; a candidate replaces the current
snapshot only when strictly newer. -/
def agg_rl_step (acc : Option JObj × Option Int) (s : ParsedSession) : Option JObj × Option Int :=
  match s.latest_rate_limits, s.rate_limits_timestamp with
  | some fields, some t =>
    if fields.isEmpty then acc
    else
      match acc.2 with
      | none => (some fields, some t)
      | some cur => if t > cur then (some fields, some t) else acc
  | _, _ => acc

/-- Lines 244-247: latest-rate-limits reduction over the parsed sessions, in
iteration order. -/
def agg_rate_limits (sessions : List ParsedSession) : Option JObj × Option Int :=
  sessions.foldl agg_rl_step (none, none)

/-- Lines 274-280: used-percent resolution for one window — the reported
percent if the latest rate-limit snapshot has one, else the configured-limit
fallback `min(100, total/limit*100)` when a positive limit is set, else
unknown. -/
def resolve_used_percent (reported : Option Rat) (limit : Option Int) (windowTotal : Int) :
    Option Rat :=
  match reported with
  | some p => some p
  | none =>
    match limit with
    | some l => if 0 < l then some (min 100 ((windowTotal : Rat) / (l : Rat) * 100)) else none
    | none => none

/-- Source `_seconds_until_epoch` (lines 649-656), exact on integral seconds. -/
def seconds_until_epoch (epoch : Option Int) (now : Int) : Option Int :=
  match epoch with
  | none => none
  | some e => some (e - now)

/-- Lines 292-296: local calendar date of an event, as days since the epoch
for a fixed local-timezone offset `tzOff` (seconds east of UTC).  ISO date
strings compare exactly like these day numbers. -/
def local_day (tzOff ts : Int) : Int :=
  (ts + tzOff).fdiv 86400

/-- Lines 292-296: add one event into the per-day buckets, keeping the
first-seen order of day keys (`dict.setdefault` followed by in-place add). -/
def add_daily (tzOff : Int) (m : List (Int × TokenUsage)) (e : Int × TokenUsage) :
    List (Int × TokenUsage) :=
  let day := local_day tzOff e.1
  if m.any (fun kv => kv.1 == day) then
    m.map (fun kv => if kv.1 == day then (kv.1, kv.2.add e.2) else kv)
  else m ++ [(day, e.2)]

/-- Lines 310-314 before serialization: sessions ordered by cumulative
`total_tokens` descending (stable) and truncated to at most 10. -/
def top_sessions_list (sessions : List ParsedSession) : List ParsedSession :=
  (pySortDescBy (fun s => s.totals.total_tokens) sessions).take 10

/-- Per-session entry of the `top_sessions` array (lines 373-383). -/
structure SessionSummary where
  session_id : String
  file_path : String
  started_at : Option Int
  last_event_at : Option Int
  totals : TokenUsage
  cli_version : Option String

/-- Summary of one parsed session as serialized in the snapshot. -/
def ParsedSession.summary (s : ParsedSession) : SessionSummary :=
  { session_id := s.session_id, file_path := s.file_path, started_at := s.started_at,
    last_event_at := s.last_event_at, totals := s.totals, cli_version := s.cli_version }

/-- One of the two configurable windows in the snapshot (lines 332-347).
`resets_at` is the ISO-8601 rendering of `resets_at_epoch`, modeled by the
instant it denotes. -/
structure WindowView where
  window_minutes : Int
  usage : TokenUsage
  used_percent : Option Rat
  resets_at : Option Int
  resets_at_epoch : Option Int
  resets_in_seconds : Option Int

/-- One sub-window of the `rate_limits` block (lines 350-361). -/
structure RateLimitSubView where
  used_percent : Option Rat
  window_minutes : Int
  resets_at_epoch : Option Int
  resets_at : Option Int

/-- The `rate_limits` block of the snapshot (lines 348-363). -/
structure RateLimitsView where
  captured_at : Option Int
  primary : RateLimitSubView
  secondary : RateLimitSubView
  credits : Option JObj

/-- The `active_session` block of the snapshot (lines 364-371). -/
structure ActiveSessionView where
  session_id : Option String
  file_path : Option String
  started_at : Option Int
  last_event_at : Option Int
  totals : TokenUsage
  cli_version : Option String

/-- The `config` block of the snapshot (lines 384-390). -/
structure ConfigView where
  path : String
  session_limit_tokens : Option Int
  week_limit_tokens : Option Int
  session_window_minutes : Int
  week_window_minutes : Int

/-- The Snapshot Document (lines 316-392).  Timestamps rendered as ISO-8601
strings in the source are modeled by the instants they denote. -/
structure Snapshot where
  generated_at : Int
  codex_home : String
  files_scanned : Nat
  sessions_count : Nat
  events_count : Nat
  last_activity_at : Option Int
  win_last_5h : TokenUsage
  win_last_24h : TokenUsage
  win_last_7d : TokenUsage
  win_last_30d : TokenUsage
  win_all_time : TokenUsage
  session_window : WindowView
  weekly_window : WindowView
  rate_limits : RateLimitsView
  active_session : ActiveSessionView
  daily_totals : List (Int × TokenUsage)
  top_sessions : List SessionSummary
  config : ConfigView
  timezone : String

/-- Lines 230-394 after parsing: assembles the Snapshot Document from the
parsed sessions.  `now` is the reference instant captured at line 225,
`tzOff` the fixed local-timezone offset, `tzName` the line-226 timezone
name. -/
def assemble_snapshot (sessions : List ParsedSession) (filesScanned : Nat) (now tzOff : Int)
    (tzName codexHome configPath : String) (cfg : TrackerConfig) : Snapshot :=
  let all_events := pySortAscBy (fun e => e.1) (all_events_of sessions)
  let rl := agg_rate_limits sessions
  let latest_rate_limits := rl.1
  let latest_rate_limits_at := rl.2
  let all_time_usage := sum_usage all_events
  let session_window_usage := sum_window now all_events cfg.session_window_minutes
  let weekly_window_usage := sum_window now all_events cfg.week_window_minutes
  let primary_rate := safe_dict (jGet (latest_rate_limits.getD []) "primary")
  let secondary_rate := safe_dict (jGet (latest_rate_limits.getD []) "secondary")
  let session_percent :=
    resolve_used_percent (safe_float_or_none (jGet primary_rate "used_percent"))
      cfg.session_limit_tokens session_window_usage.total_tokens
  let weekly_percent :=
    resolve_used_percent (safe_float_or_none (jGet secondary_rate "used_percent"))
      cfg.week_limit_tokens weekly_window_usage.total_tokens
  let session_resets_epoch := safe_int_or_none (jGet primary_rate "resets_at")
  let weekly_resets_epoch := safe_int_or_none (jGet secondary_rate "resets_at")
  let daily := pySortDescBy (fun kv => kv.1) (all_events.foldl (add_daily tzOff) [])
  let active := pyMaxBy (fun s => s.last_event_at.getD 0) sessions
  let credits :=
    let c := safe_dict (jGet (latest_rate_limits.getD []) "credits")
    if c.isEmpty then none else some c
  { generated_at := now,
    codex_home := codexHome,
    files_scanned := filesScanned,
    sessions_count := sessions.length,
    events_count := all_events.length,
    last_activity_at :=
      all_events.foldl
        (fun acc e =>
          match acc with
          | none => some e.1
          | some m => some (max m e.1))
        none,
    win_last_5h := sum_window now all_events (5 * 60),
    win_last_24h := sum_window now all_events (24 * 60),
    win_last_7d := sum_window now all_events (7 * 24 * 60),
    win_last_30d := sum_window now all_events (30 * 24 * 60),
    win_all_time := all_time_usage,
    session_window :=
      { window_minutes := cfg.session_window_minutes,
        usage := session_window_usage,
        used_percent := session_percent,
        resets_at := session_resets_epoch,
        resets_at_epoch := session_resets_epoch,
        resets_in_seconds := seconds_until_epoch session_resets_epoch now },
    weekly_window :=
      { window_minutes := cfg.week_window_minutes,
        usage := weekly_window_usage,
        used_percent := weekly_percent,
        resets_at := weekly_resets_epoch,
        resets_at_epoch := weekly_resets_epoch,
        resets_in_seconds := seconds_until_epoch weekly_resets_epoch now },
    rate_limits :=
      { captured_at := latest_rate_limits_at,
        primary :=
          { used_percent := session_percent,
            window_minutes := safe_int (jGet primary_rate "window_minutes") cfg.session_window_minutes,
            resets_at_epoch := session_resets_epoch,
            resets_at := session_resets_epoch },
        secondary :=
          { used_percent := weekly_percent,
            window_minutes := safe_int (jGet secondary_rate "window_minutes") cfg.week_window_minutes,
            resets_at_epoch := weekly_resets_epoch,
            resets_at := weekly_resets_epoch },
        credits := credits },
    active_session :=
      match active with
      | some s =>
        { session_id := some s.session_id, file_path := some s.file_path,
          started_at := s.started_at, last_event_at := s.last_event_at,
          totals := s.totals, cli_version := s.cli_version }
      | none =>
        { session_id := none, file_path := none, started_at := none, last_event_at := none,
          totals := TokenUsage.zero, cli_version := none },
    daily_totals := daily,
    top_sessions := (top_sessions_list sessions).map ParsedSession.summary,
    config :=
      { path := configPath,
        session_limit_tokens := cfg.session_limit_tokens,
        week_limit_tokens := cfg.week_limit_tokens,
        session_window_minutes := cfg.session_window_minutes,
        week_window_minutes := cfg.week_window_minutes },
    timezone := tzName }

/-- Source `UsageTracker.generate_snapshot` (lines 224-394): parse every
discovered file (skipping the unusable ones) and assemble the snapshot.
`parseNow` is the clock read by the line-197 fallback during parsing. -/
def generate_snapshot (files : List SessionFile) (parseNow now tzOff : Int)
    (tzName codexHome configPath : String) (cfg : TrackerConfig) : Snapshot :=
  assemble_snapshot (files.filterMap (parse_session_file parseNow)) files.length now tzOff
    tzName codexHome configPath cfg

/-- The Snapshot Document with its explicitly time-relative fields
(`generated_at` and the two `resets_in_seconds`) blanked, for stating
determinism up to those fields. -/
def stripTimeRelative (s : Snapshot) : Snapshot :=
  { s with
    generated_at := 0,
    session_window := { s.session_window with resets_in_seconds := none },
    weekly_window := { s.weekly_window with resets_in_seconds := none } }

/-! ### Algebra of `TokenUsage` and of event sums -/

theorem TokenUsage.le_refl (a : TokenUsage) : a.le a := by
  simp [TokenUsage.le]

theorem TokenUsage.add_zero' (a : TokenUsage) : a.add TokenUsage.zero = a := by
  cases a; simp [TokenUsage.add, TokenUsage.zero]

theorem TokenUsage.zero_add' (a : TokenUsage) : TokenUsage.zero.add a = a := by
  cases a; simp [TokenUsage.add, TokenUsage.zero]

theorem TokenUsage.add_assoc' (a b c : TokenUsage) : (a.add b).add c = a.add (b.add c) := by
  simp [TokenUsage.add]; omega

theorem foldl_add_acc (l : List (Int × TokenUsage)) (a b : TokenUsage) :
    List.foldl (fun total e => total.add e.2) (a.add b) l =
      a.add (List.foldl (fun total e => total.add e.2) b l) := by
  induction l generalizing b with
  | nil => rfl
  | cons e t ih => simp only [List.foldl_cons, TokenUsage.add_assoc', ih]

theorem sum_usage_cons (e : Int × TokenUsage) (l : List (Int × TokenUsage)) :
    sum_usage (e :: l) = e.2.add (sum_usage l) := by
  have h := foldl_add_acc l e.2 TokenUsage.zero
  rw [TokenUsage.add_zero'] at h
  simpa [sum_usage, TokenUsage.zero_add'] using h

theorem sum_usage_append_one (l : List (Int × TokenUsage)) (e : Int × TokenUsage) :
    sum_usage (l ++ [e]) = (sum_usage l).add e.2 := by
  simp [sum_usage, List.foldl_append]

theorem sum_usage_le_of_sublist {l₁ l₂ : List (Int × TokenUsage)} (h : l₁.Sublist l₂)
    (hn : ∀ e ∈ l₂, e.2.Nonneg) : (sum_usage l₁).le (sum_usage l₂) := by
  induction h with
  | slnil => exact TokenUsage.le_refl _
  | cons e h ih =>
    have h1 := ih (fun x hx => hn x (List.mem_cons_of_mem _ hx))
    have he := hn e (List.mem_cons_self _ _)
    rw [sum_usage_cons]
    revert h1 he
    simp only [TokenUsage.le, TokenUsage.add, TokenUsage.Nonneg]
    omega
  | cons₂ e h ih =>
    have h1 := ih (fun x hx => hn x (List.mem_cons_of_mem _ hx))
    rw [sum_usage_cons, sum_usage_cons]
    revert h1
    simp only [TokenUsage.le, TokenUsage.add]
    omega

theorem sum_window_mono (now : Int) (events : List (Int × TokenUsage)) (m₁ m₂ : Int)
    (hm : m₁ ≤ m₂) (hn : ∀ e ∈ events, e.2.Nonneg) :
    (sum_window now events m₁).le (sum_window now events m₂) := by
  unfold sum_window
  apply sum_usage_le_of_sublist
  · refine List.monotone_filter_right _ (fun e he => ?_)
    simp only [decide_eq_true_eq] at he ⊢
    omega
  · intro e he
    exact hn e (List.mem_of_mem_filter he)

theorem sum_window_le_all (now : Int) (events : List (Int × TokenUsage)) (m : Int)
    (hn : ∀ e ∈ events, e.2.Nonneg) : (sum_window now events m).le (sum_usage events) := by
  unfold sum_window
  exact sum_usage_le_of_sublist (List.filter_sublist _) hn

/-! ### The stable sort used by `sorted(..., reverse=True)` -/

theorem pyInsert_perm (bef : α → α → Bool) (a : α) (l : List α) :
    List.Perm (pyInsert bef a l) (a :: l) := by
  induction l with
  | nil => exact List.Perm.refl _
  | cons b t ih =>
    simp only [pyInsert]
    split
    · exact (ih.cons b).trans (List.Perm.swap a b t)
    · exact List.Perm.refl _

theorem pySort_perm (bef : α → α → Bool) (l : List α) : List.Perm (pySort bef l) l := by
  induction l with
  | nil => exact List.Perm.refl _
  | cons a t ih => exact (pyInsert_perm bef a (pySort bef t)).trans (ih.cons a)

theorem pyInsert_sorted_desc (k : α → Int) (a : α) (l : List α)
    (h : List.Sorted (fun x y => k y ≤ k x) l) :
    List.Sorted (fun x y => k y ≤ k x) (pyInsert (fun x y => k x > k y) a l) := by
  induction l with
  | nil => simp [pyInsert]
  | cons b t ih =>
    rw [List.sorted_cons] at h
    simp only [pyInsert]
    split
    · rename_i hb
      simp only [decide_eq_true_eq] at hb
      rw [List.sorted_cons]
      refine ⟨fun x hx => ?_, ih h.2⟩
      rcases List.mem_cons.mp ((pyInsert_perm _ a t).mem_iff.mp hx) with rfl | hx'
      · omega
      · exact h.1 x hx'
    · rename_i hb
      simp only [decide_eq_true_eq] at hb
      rw [List.sorted_cons]
      refine ⟨fun x hx => ?_, List.sorted_cons.mpr h⟩
      rcases List.mem_cons.mp hx with rfl | hx'
      · omega
      · have := h.1 x hx'
        omega

theorem pySortDescBy_sorted (k : α → Int) (l : List α) :
    List.Sorted (fun x y => k y ≤ k x) (pySortDescBy k l) := by
  unfold pySortDescBy
  induction l with
  | nil => simp [pySort]
  | cons a t ih => exact pyInsert_sorted_desc k a _ ih

theorem pyInsert_filter_desc_eq (k : α → Int) (c : Int) (a : α) (l : List α) (ha : k a = c) :
    (pyInsert (fun x y => k x > k y) a l).filter (fun x => k x == c) =
      a :: l.filter (fun x => k x == c) := by
  induction l with
  | nil => simp [pyInsert, List.filter_cons, ha]
  | cons b t ih =>
    simp only [pyInsert]
    split
    · rename_i hb
      simp only [decide_eq_true_eq] at hb
      have hbc : (k b == c) = false := by
        simp only [beq_eq_false_iff_ne, ne_eq]
        omega
      simp only [List.filter_cons, hbc, ih]
      simp
    · simp [List.filter_cons, ha]

theorem pyInsert_filter_desc_ne (k : α → Int) (c : Int) (a : α) (l : List α) (ha : k a ≠ c) :
    (pyInsert (fun x y => k x > k y) a l).filter (fun x => k x == c) =
      l.filter (fun x => k x == c) := by
  have hac : (k a == c) = false := by simpa using ha
  induction l with
  | nil => simp [pyInsert, List.filter_cons, hac]
  | cons b t ih =>
    simp only [pyInsert]
    split
    · simp only [List.filter_cons, ih]
    · simp [List.filter_cons, hac]

theorem pySortDescBy_filter_stable (k : α → Int) (c : Int) (l : List α) :
    (pySortDescBy k l).filter (fun x => k x == c) = l.filter (fun x => k x == c) := by
  unfold pySortDescBy
  induction l with
  | nil => rfl
  | cons a t ih =>
    simp only [pySort]
    by_cases ha : k a = c
    · rw [pyInsert_filter_desc_eq k c a _ ha, ih, List.filter_cons]
      simp [ha]
    · rw [pyInsert_filter_desc_ne k c a _ ha, ih, List.filter_cons]
      simp [ha]

/-! ### Characterization of the latest-rate-limits reduction -/

/-- A session takes part in the line-244 comparison exactly when its stored
rate-limit dict is truthy (present and nonempty) and it has a timestamp. -/
def rl_eligible (s : ParsedSession) : Bool :=
  (match s.latest_rate_limits with
   | some fields => !fields.isEmpty
   | none => false) && s.rate_limits_timestamp.isSome

/-- Timestamp key used to compare eligible sessions. -/
def rl_key (s : ParsedSession) : Int :=
  s.rate_limits_timestamp.getD 0

theorem foldl_filter_eq (f : β → α → β) (p : α → Bool) (l : List α) (init : β) :
    (l.filter p).foldl f init =
      l.foldl (fun acc x => if p x then f acc x else acc) init := by
  induction l generalizing init with
  | nil => rfl
  | cons a t ih =>
    rw [List.filter_cons]
    by_cases hp : p a
    · simp [hp, ih]
    · simp [hp, ih]

theorem agg_rate_limits_eq_max : ∀ (sessions : List ParsedSession),
    agg_rate_limits sessions =
      match pyMaxBy rl_key (sessions.filter rl_eligible) with
      | none => (none, none)
      | some s => (s.latest_rate_limits, s.rate_limits_timestamp) := by
  have main : ∀ (sessions : List ParsedSession) (acc : Option JObj × Option Int)
      (m : Option ParsedSession),
      (match m with
       | none => acc = (none, none)
       | some c => rl_eligible c = true ∧ acc = (c.latest_rate_limits, c.rate_limits_timestamp)) →
      (match sessions.foldl (fun m x => if rl_eligible x then py_max_step rl_key m x else m) m with
       | none => sessions.foldl agg_rl_step acc = (none, none)
       | some c =>
         rl_eligible c = true ∧
           sessions.foldl agg_rl_step acc = (c.latest_rate_limits, c.rate_limits_timestamp)) := by
    intro sessions
    induction sessions with
    | nil => intro acc m h; exact h
    | cons s rest ih =>
      intro acc m h
      simp only [List.foldl_cons]
      by_cases he : rl_eligible s = true
      · obtain ⟨fields, hrl, hemp⟩ :
            ∃ fields, s.latest_rate_limits = some fields ∧ fields.isEmpty = false := by
          unfold rl_eligible at he
          cases hrl : s.latest_rate_limits with
          | none => rw [hrl] at he; simp at he
          | some fields =>
            rw [hrl] at he
            simp only [Bool.and_eq_true, Bool.not_eq_true'] at he
            exact ⟨fields, rfl, he.1⟩
        obtain ⟨t, htt⟩ : ∃ t, s.rate_limits_timestamp = some t := by
          unfold rl_eligible at he
          simp only [Bool.and_eq_true, Option.isSome_iff_exists] at he
          exact he.2
        have hstep : ∀ acc' : Option JObj × Option Int,
            agg_rl_step acc' s =
              match acc'.2 with
              | none => (some fields, some t)
              | some cur => if t > cur then (some fields, some t) else acc' := by
          intro acc'
          simp only [agg_rl_step, hrl, htt, hemp, Bool.false_eq_true, if_false]
        rw [if_pos he, hstep]
        have hkey : rl_key s = t := by simp [rl_key, htt]
        cases m with
        | none =>
          simp only at h
          subst h
          simp only [py_max_step]
          apply ih
          exact ⟨he, by rw [hrl, htt]⟩
        | some c =>
          obtain ⟨hce, hacc⟩ := h
          obtain ⟨ct, hctt⟩ : ∃ ct, c.rate_limits_timestamp = some ct := by
            unfold rl_eligible at hce
            simp only [Bool.and_eq_true, Option.isSome_iff_exists] at hce
            exact hce.2
          subst hacc
          simp only [py_max_step, hctt, hkey]
          have hkeyc : rl_key c = ct := by simp [rl_key, hctt]
          rw [hkeyc]
          by_cases hgt : t > ct
          · rw [if_pos hgt, if_pos hgt]
            apply ih
            exact ⟨he, by rw [hrl, htt]⟩
          · rw [if_neg hgt, if_neg hgt]
            apply ih
            exact ⟨hce, by rw [hctt]⟩
      · rw [Bool.not_eq_true] at he
        have hskip : agg_rl_step acc s = acc := by
          unfold rl_eligible at he
          unfold agg_rl_step
          cases hrl : s.latest_rate_limits with
          | none => simp
          | some fields =>
            cases htt : s.rate_limits_timestamp with
            | none => simp
            | some t =>
              rw [hrl, htt] at he
              simp only [Option.isSome_some, Bool.and_true, Bool.not_eq_false'] at he
              simp [he]
        rw [if_neg (by simp [he]), hskip]
        exact ih acc m h
  intro sessions
  have h := main sessions (none, none) none rfl
  have hfold : pyMaxBy rl_key (sessions.filter rl_eligible) =
      sessions.foldl (fun m x => if rl_eligible x then py_max_step rl_key m x else m) none := by
    rw [pyMaxBy, foldl_filter_eq]
  rw [agg_rate_limits, hfold]
  cases hm :
      sessions.foldl (fun m x => if rl_eligible x then py_max_step rl_key m x else m) none with
  | none => rw [hm] at h; simpa using h
  | some c => rw [hm] at h; simpa using h.2

/-! ### Behavior of the parser loop body -/

theorem optIsStr_session_meta_false (v : Option JVal)
    (hm : optIsStr v "event_msg" = true) : optIsStr v "session_meta" = false := by
  cases v with
  | none => simp [optIsStr] at hm
  | some w =>
    cases w <;> simp_all [optIsStr]

/-- On an `event_msg`/`token_count` record, the loop body takes the
lines-182-204 path: update `last_event_at`, handle the cumulative counter,
then remember a rate-limit dict. -/
theorem parse_line_token (p : Int) (st : ParseState) (item : JObj)
    (hm : optIsStr (jGet item "type") "event_msg" = true)
    (ht : optIsStr (jGet (payload_of item) "type") "token_count" = true) :
    parse_line p st (some item) =
      rate_limits_step (parse_iso8601 (jGet item "timestamp"))
        (jGet (payload_of item) "rate_limits")
        (token_usage_step p (parse_iso8601 (jGet item "timestamp")) (record_usage item)
          { st with
            last_event_at := updateLast st.last_event_at (parse_iso8601 (jGet item "timestamp")) }) := by
  have hsm := optIsStr_session_meta_false _ hm
  simp only [parse_line, hsm, Bool.false_eq_true, if_false, hm, ht, Bool.and_self, if_true]

theorem rate_limits_step_prev (ts : Option Int) (rl : Option JVal) (st : ParseState) :
    (rate_limits_step ts rl st).prev_totals = st.prev_totals := by
  unfold rate_limits_step
  cases rl with
  | none => rfl
  | some v => cases v <;> rfl

theorem rate_limits_step_events (ts : Option Int) (rl : Option JVal) (st : ParseState) :
    (rate_limits_step ts rl st).events = st.events := by
  unfold rate_limits_step
  cases rl with
  | none => rfl
  | some v => cases v <;> rfl

theorem rate_limits_step_totals (ts : Option Int) (rl : Option JVal) (st : ParseState) :
    (rate_limits_step ts rl st).totals = st.totals := by
  unfold rate_limits_step
  cases rl with
  | none => rfl
  | some v => cases v <;> rfl

theorem rate_limits_step_last (ts : Option Int) (rl : Option JVal) (st : ParseState) :
    (rate_limits_step ts rl st).last_event_at = st.last_event_at := by
  unfold rate_limits_step
  cases rl with
  | none => rfl
  | some v => cases v <;> rfl

theorem token_usage_step_last (p : Int) (ts : Option Int) (u : TokenUsage) (st : ParseState) :
    (token_usage_step p ts u st).last_event_at = st.last_event_at := by
  unfold token_usage_step
  dsimp only
  split
  · split <;> rfl
  · rfl

/-- The loop invariant of `_parse_session_file`: the running `totals` equal
the fieldwise sum of the accumulated events (lines 198-199 update both
together). -/
def StInv (st : ParseState) : Prop :=
  st.totals = sum_usage st.events

theorem token_usage_step_inv (p : Int) (ts : Option Int) (u : TokenUsage) (st : ParseState)
    (h : StInv st) : StInv (token_usage_step p ts u st) := by
  unfold token_usage_step
  dsimp only
  split
  · split
    · unfold StInv at *
      simp only [sum_usage_append_one, h]
    · exact h
  · exact h

theorem parse_line_inv (p : Int) (st : ParseState) (line : Option JObj) (h : StInv st) :
    StInv (parse_line p st line) := by
  cases line with
  | none => exact h
  | some item =>
    unfold parse_line
    simp only
    split
    · exact h
    · split
      · unfold StInv
        rw [rate_limits_step_totals, rate_limits_step_events]
        exact token_usage_step_inv _ _ _ _ h
      · exact h

theorem parse_fold_inv (p : Int) (lines : List (Option JObj)) (st : ParseState) (h : StInv st) :
    StInv (lines.foldl (parse_line p) st) := by
  induction lines generalizing st with
  | nil => exact h
  | cons a t ih => exact ih _ (parse_line_inv p st a h)

/-- Every decoded `token_count` record of the line carries a parsable
timestamp (other lines are unconstrained). -/
def token_ts_parsable (line : Option JObj) : Bool :=
  match line with
  | none => true
  | some item =>
    if optIsStr (jGet item "type") "event_msg" && optIsStr (jGet (payload_of item) "type") "token_count" then
      (parse_iso8601 (jGet item "timestamp")).isSome
    else true

theorem token_usage_step_congr (p₁ p₂ : Int) (ts : Option Int) (u : TokenUsage)
    (st : ParseState) (h : ts.isSome = true) :
    token_usage_step p₁ ts u st = token_usage_step p₂ ts u st := by
  obtain ⟨t, rfl⟩ := Option.isSome_iff_exists.mp h
  rfl

theorem parse_line_congr (p₁ p₂ : Int) (st : ParseState) (line : Option JObj)
    (h : token_ts_parsable line = true) :
    parse_line p₁ st line = parse_line p₂ st line := by
  cases line with
  | none => rfl
  | some item =>
    unfold parse_line
    simp only
    split
    · rfl
    · split
      · rename_i hguard
        simp only [token_ts_parsable] at h
        rw [if_pos hguard] at h
        rw [token_usage_step_congr p₁ p₂ _ _ _ h]
      · rfl

theorem foldl_congr_of_all {α β : Type _} (g₁ g₂ : β → α → β) (l : List α) (p : α → Bool)
    (hall : l.all p = true) (h : ∀ b a, p a = true → g₁ b a = g₂ b a) (b : β) :
    l.foldl g₁ b = l.foldl g₂ b := by
  induction l generalizing b with
  | nil => rfl
  | cons x xs ih =>
    rw [List.all_cons, Bool.and_eq_true] at hall
    rw [List.foldl_cons, List.foldl_cons, h _ _ hall.1]
    exact ih hall.2 _

theorem parse_session_file_congr (p₁ p₂ : Int) (f : SessionFile)
    (h : f.lines.all token_ts_parsable = true) :
    parse_session_file p₁ f = parse_session_file p₂ f := by
  unfold parse_session_file
  rw [foldl_congr_of_all (parse_line p₁) (parse_line p₂) f.lines token_ts_parsable h
    (fun st line hl => parse_line_congr p₁ p₂ st line hl)]

theorem generate_snapshot_congr (files : List SessionFile) (p₁ p₂ now tzOff : Int)
    (tzName codexHome configPath : String) (cfg : TrackerConfig)
    (h : ∀ f ∈ files, f.lines.all token_ts_parsable = true) :
    generate_snapshot files p₁ now tzOff tzName codexHome configPath cfg =
      generate_snapshot files p₂ now tzOff tzName codexHome configPath cfg := by
  unfold generate_snapshot
  rw [List.filterMap_congr (fun f hf => parse_session_file_congr p₁ p₂ f (h f hf))]

/-! ### Sign facts about counters -/

/-- A decoded JSON value that, if numeric, is non-negative. -/
def JVal.numNonneg : JVal → Prop
  | .int n => 0 ≤ n
  | .rat q => 0 ≤ q
  | _ => True

/-- Every value of the (optional) mapping is non-negative when numeric. -/
def objValsNonneg : Option JVal → Prop
  | some (.obj m) => ∀ kv ∈ m, kv.2.numNonneg
  | _ => True

theorem jGet_mem {m : JObj} {key : String} {v : JVal} (h : jGet m key = some v) :
    (key, v) ∈ m := by
  induction m with
  | nil => simp [jGet] at h
  | cons kv rest ih =>
    obtain ⟨k', v'⟩ := kv
    unfold jGet at h
    split at h
    · rename_i hk
      injection h with h'
      subst h' hk
      exact List.mem_cons_self _ _
    · exact List.mem_cons_of_mem _ (ih h)

theorem safe_int_nonneg (v : Option JVal) (h : ∀ w, v = some w → w.numNonneg) :
    0 ≤ safe_int v 0 := by
  cases v with
  | none => simp [safe_int]
  | some w =>
    have hw := h w rfl
    cases w with
    | null => simp [safe_int]
    | bool b => cases b <;> simp [safe_int]
    | int n => simpa [safe_int, JVal.numNonneg] using hw
    | rat q =>
      simp only [safe_int]
      have hnum : 0 ≤ q.num := Rat.num_nonneg.mpr hw
      exact Int.tdiv_nonneg hnum (Int.ofNat_nonneg _)
    | str s => simp [safe_int]
    | obj m => simp [safe_int]
    | arr xs => simp [safe_int]

theorem from_mapping_nonneg (v : Option JVal) (h : objValsNonneg v) :
    (TokenUsage.from_mapping v).Nonneg := by
  have hzero : TokenUsage.zero.Nonneg := by
    simp [TokenUsage.zero, TokenUsage.Nonneg]
  cases v with
  | none => exact hzero
  | some w =>
    cases w with
    | obj m =>
      unfold objValsNonneg at h
      simp only [TokenUsage.from_mapping, TokenUsage.Nonneg]
      refine ⟨?_, ?_, ?_, ?_, ?_⟩ <;>
        exact safe_int_nonneg _ (fun x hx => h (_, x) (jGet_mem hx))
    | null => exact hzero
    | bool b => exact hzero
    | int n => exact hzero
    | rat q => exact hzero
    | str s => exact hzero
    | arr xs => exact hzero

theorem delta_nonneg (a previous : TokenUsage) : (a.delta previous).Nonneg := by
  unfold TokenUsage.delta TokenUsage.Nonneg
  dsimp only
  exact ⟨le_max_left _ _, le_max_left _ _, le_max_left _ _, le_max_left _ _, le_max_left _ _⟩

theorem add_nonneg' (a b : TokenUsage) (ha : a.Nonneg) (hb : b.Nonneg) : (a.add b).Nonneg := by
  unfold TokenUsage.Nonneg TokenUsage.add at *
  dsimp only
  omega

theorem hasNonzeroField_eq_has_activity_of_nonneg (u : TokenUsage) (h : u.Nonneg) :
    u.hasNonzeroField = u.has_activity := by
  unfold TokenUsage.Nonneg at h
  unfold TokenUsage.hasNonzeroField TokenUsage.has_activity
  apply Bool.eq_iff_iff.mpr
  simp only [Bool.or_eq_true, bne_iff_ne, ne_eq, decide_eq_true_eq]
  omega

theorem hasNonzero_of_has_activity (u : TokenUsage) (h : u.has_activity = true) :
    u.hasNonzeroField = true := by
  unfold TokenUsage.has_activity at h
  unfold TokenUsage.hasNonzeroField
  simp only [Bool.or_eq_true, decide_eq_true_eq] at h
  simp only [Bool.or_eq_true, bne_iff_ne, ne_eq]
  omega

/-! ### Concrete log fixtures -/

/-- A `token_count` log line carrying a cumulative `total_tokens` reading. -/
def totLine (ts : String) (tot : Int) : Option JObj :=
  some [("timestamp", .str ts), ("type", .str "event_msg"),
        ("payload", .obj [("type", .str "token_count"),
          ("info", .obj [("total_token_usage", .obj [("total_tokens", .int tot)])])])]

/-- A `token_count` record at instant 200 with no usable counter
(empty `info`): it produces no event but carries a timestamp. -/
def zero_count_item : JObj :=
  [("timestamp", .str "200"), ("type", .str "event_msg"),
   ("payload", .obj [("type", .str "token_count"), ("info", .obj [])])]

/-- The single-session log of the spec's worked example: cumulative
`total_tokens` readings 100, 150, 140, 200. -/
def regression_file : SessionFile :=
  ⟨"rollout-c1", "sessions/rollout-c1.jsonl", true,
    [totLine "10" 100, totLine "20" 150, totLine "30" 140, totLine "40" 200]⟩

/-- A log holding only a `session_meta` record. -/
def meta_only_file : SessionFile :=
  ⟨"rollout-meta", "sessions/rollout-meta.jsonl", true,
    [some [("timestamp", .str "5"), ("type", .str "session_meta"),
           ("payload", .obj [("id", .str "sess-1")])]]⟩

/-- A log whose only `token_count` record has activity but no timestamp:
its event is stamped with the parse-time clock (line 197). -/
def no_ts_file : SessionFile :=
  ⟨"rollout-nts", "sessions/rollout-nts.jsonl", true,
    [some [("type", .str "event_msg"),
           ("payload", .obj [("type", .str "token_count"),
             ("info", .obj [("total_token_usage", .obj [("total_tokens", .int 5)])])])]]⟩

/-- A log whose first cumulative counter carries a negative
`input_tokens` reading next to a positive total. -/
def negative_field_file : SessionFile :=
  ⟨"rollout-neg", "sessions/rollout-neg.jsonl", true,
    [some [("timestamp", .str "978400"), ("type", .str "event_msg"),
           ("payload", .obj [("type", .str "token_count"),
             ("info", .obj [("total_token_usage",
               .obj [("input_tokens", .int (-5)), ("total_tokens", .int 3)])])])]]⟩

/-- The event stream the parser reconstructs from `negative_field_file`. -/
def negative_field_events : List (Int × TokenUsage) :=
  (parse_session_file 0 negative_field_file).elim [] (fun s => s.events)

/-- A `token_count` record whose cumulative counter has the nonzero (but not
positive) field `input_tokens = -5`. -/
def negative_field_item : JObj :=
  [("timestamp", .str "10"), ("type", .str "event_msg"),
   ("payload", .obj [("type", .str "token_count"),
     ("info", .obj [("total_token_usage", .obj [("input_tokens", .int (-5))])])])]

/-- A neutral parser state for concrete instantiations. -/
def emptyState : ParseState :=
  { session_id := "s", started_at := none, last_event_at := none, cli_version := none,
    totals := TokenUsage.zero, prev_totals := none, events := [],
    latest_rate_limits := none, rate_limits_timestamp := none }

/-- Session A of the activity scenario: one counted event at instant 100. -/
def activity_file_a : SessionFile :=
  ⟨"rollout-a", "sessions/rollout-a.jsonl", true, [totLine "100" 100]⟩

/-- Session B of the activity scenario: one counted event at instant 50,
then a `token_count` record at instant 200 with no usable counter. -/
def activity_file_b : SessionFile :=
  ⟨"rollout-b", "sessions/rollout-b.jsonl", true,
    [totLine "50" 10, some zero_count_item]⟩

/-- A parsed session holding only rate-limit data. -/
def rlSess (id : String) (rl : Option JObj) (ts : Option Int) : ParsedSession :=
  { session_id := id, file_path := id, started_at := none, last_event_at := none,
    cli_version := none, totals := TokenUsage.zero, events := [], latest_rate_limits := rl,
    rate_limits_timestamp := ts }

/-- A parsed session with a given cumulative total. -/
def totSess (id : String) (tot : Int) : ParsedSession :=
  { session_id := id, file_path := id, started_at := none, last_event_at := none,
    cli_version := none, totals := { total_tokens := tot }, events := [],
    latest_rate_limits := none, rate_limits_timestamp := none }

/-- Fifteen sessions with pairwise distinct cumulative totals. -/
def fifteen_sessions : List ParsedSession :=
  [totSess "s1" 7, totSess "s2" 3, totSess "s3" 15, totSess "s4" 1, totSess "s5" 9,
   totSess "s6" 12, totSess "s7" 5, totSess "s8" 14, totSess "s9" 2, totSess "s10" 11,
   totSess "s11" 8, totSess "s12" 13, totSess "s13" 4, totSess "s14" 10, totSess "s15" 6]

/-- Three sessions with one tie on the cumulative total. -/
def tie_sessions : List ParsedSession :=
  [totSess "a" 5, totSess "b" 7, totSess "c" 5]

/-! ### Claim C1: the worked regression example -/

/-- Claim C1 (counterexample): on cumulative readings 100, 150, 140, 200 the
parser does NOT reconstruct the event list [100, 50, 0, 60] — the clamped
zero delta at the 150→140 regression produces no Event (line 196), so only
three events exist. -/
theorem regression_events_ne_spec_list :
    (parse_session_file 0 regression_file).map
        (fun s => s.events.map (fun e => e.2.total_tokens)) ≠
      some [100, 50, 0, 60] := by
  decide

/-- Claim C1 (amended): on cumulative `total_tokens` readings
100, 150, 140, 200 the parser computes the incremental deltas
100, 50, 0, 60; the first observation's delta equals the cumulative value
itself, the 150→140 regression clamps to a zero delta rather than −10 while
the previous-cumulative cursor still advances to 140, and — since a zero
delta appends no Event — the reconstructed event list is [100, 50, 60] with
cumulative session total 210. -/
theorem regression_file_events :
    (parse_session_file 0 regression_file).map
        (fun s => s.events.map (fun e => e.2.total_tokens)) = some [100, 50, 60] ∧
    ((regression_file.lines.take 2).foldl (parse_line 0) (initState regression_file)).prev_totals =
      some { total_tokens := 150 } ∧
    computed_delta
        ((regression_file.lines.take 2).foldl (parse_line 0) (initState regression_file))
        { total_tokens := 140 } = TokenUsage.zero ∧
    ((regression_file.lines.take 3).foldl (parse_line 0) (initState regression_file)).prev_totals =
      some { total_tokens := 140 } ∧
    ((regression_file.lines.take 3).foldl (parse_line 0) (initState regression_file)).events.map
        (fun e => e.2.total_tokens) = [100, 50] ∧
    (parse_session_file 0 regression_file).map (fun s => s.totals.total_tokens) = some 210 := by
  exact ⟨by decide, by decide, by decide, by decide, by decide, by decide⟩

/-! ### Claim C2: determinism of the snapshot -/

/-- Claim C2 (counterexample): with the file set and the reference instant
`now` fixed, the snapshot minus `generated_at`/`resets_in_seconds` still
differs between two runs whose parse-time clock readings differ, because an
activity record without a parsable timestamp is stamped with `datetime.now`
(line 197); here `last_activity_at` becomes 100 in one run and 200 in the
other. -/
theorem snapshot_depends_on_parse_clock :
    stripTimeRelative (generate_snapshot [no_ts_file] 100 1000 0 "UTC" "home" "cfg" {}) ≠
      stripTimeRelative (generate_snapshot [no_ts_file] 200 1000 0 "UTC" "home" "cfg" {}) := by
  intro h
  exact absurd (congrArg Snapshot.last_activity_at h) (by decide)

/-- Claim C2 (amended): for a fixed set of session files, a fixed reference
instant `now` and a fixed environment (timezone, paths, configuration), the
whole Snapshot Document is a deterministic function of the file contents and
`now` — independent of the parse-time clock — provided every decoded
`token_count` record carries a parsable timestamp; without that proviso the
line-197 fallback makes event timestamps (hence e.g. `last_activity_at`)
depend on the parse-time clock as well. -/
theorem snapshot_deterministic_of_parsable_timestamps (files : List SessionFile)
    (p₁ p₂ now tzOff : Int) (tzName codexHome configPath : String) (cfg : TrackerConfig)
    (h : ∀ f ∈ files, f.lines.all token_ts_parsable = true) :
    generate_snapshot files p₁ now tzOff tzName codexHome configPath cfg =
      generate_snapshot files p₂ now tzOff tzName codexHome configPath cfg :=
  generate_snapshot_congr files p₁ p₂ now tzOff tzName codexHome configPath cfg h

/-- Claim C2 (witness): the regression fixture has parsable timestamps on
every `token_count` record, so two runs with different parse clocks agree. -/
theorem snapshot_deterministic_witness :
    generate_snapshot [regression_file] 5 1000 0 "UTC" "home" "cfg" {} =
      generate_snapshot [regression_file] 7 1000 0 "UTC" "home" "cfg" {} :=
  snapshot_deterministic_of_parsable_timestamps [regression_file] 5 7 1000 0 "UTC" "home" "cfg" {}
    (by decide)

/-! ### Claim C3: the latest-rate-limits reduction -/

/-- Reduction rule as the claim words it (for comparison with the code):
every session with a rate-limit snapshot and a timestamp takes part, and on
equal timestamps the snapshot seen later in iteration order wins. -/
def agg_rate_limits_claim (sessions : List ParsedSession) : Option JObj × Option Int :=
  sessions.foldl
    (fun acc s =>
      match s.latest_rate_limits, s.rate_limits_timestamp with
      | some fields, some t =>
        match acc.2 with
        | none => (some fields, some t)
        | some cur => if t ≥ cur then (some fields, some t) else acc
      | _, _ => acc)
    (none, none)

/-- Claim C3 (counterexample): on two sessions carrying rate-limit snapshots
with equal timestamps the implementation keeps the one seen FIRST in
iteration order (line 245 compares strictly), not the later one the claim
names; moreover a session whose snapshot is an empty dict is skipped even
when it is the most recent. -/
theorem rate_limit_tie_counterexample :
    agg_rate_limits [rlSess "a" (some [("w", .int 1)]) (some 100),
        rlSess "b" (some [("w", .int 2)]) (some 100)] ≠
      agg_rate_limits_claim [rlSess "a" (some [("w", .int 1)]) (some 100),
        rlSess "b" (some [("w", .int 2)]) (some 100)] ∧
    (agg_rate_limits [rlSess "a" (some [("w", .int 1)]) (some 100),
        rlSess "b" (some [("w", .int 2)]) (some 100)]).1 = some [("w", .int 1)] ∧
    (agg_rate_limits_claim [rlSess "a" (some [("w", .int 1)]) (some 100),
        rlSess "b" (some [("w", .int 2)]) (some 100)]).1 = some [("w", .int 2)] ∧
    agg_rate_limits [rlSess "a" (some [("w", .int 1)]) (some 100),
        rlSess "b" (some []) (some 200)] = (some [("w", .int 1)], some 100) := by
  refine ⟨?_, rfl, rfl, rfl⟩
  intro h
  exact absurd (congrArg (fun p => safe_int (jGet (p.1.getD []) "w") 0) h) (by decide)

/-- Claim C3 (amended): across the parsed sessions, the retained rate-limit
snapshot is that of the first session attaining the most recent associated
timestamp among the sessions whose snapshot is present and nonempty and has
a timestamp; all other sessions are skipped, and on equal timestamps the
session seen earlier in iteration order wins (the strict line-245
comparison). -/
theorem latest_rate_limits_resolution (sessions : List ParsedSession) :
    agg_rate_limits sessions =
      match pyMaxBy rl_key (sessions.filter rl_eligible) with
      | none => (none, none)
      | some s => (s.latest_rate_limits, s.rate_limits_timestamp) :=
  agg_rate_limits_eq_max sessions

/-! ### Claim C4: cumulative-counter handling per record -/

theorem token_usage_step_spec (p : Int) (ts : Option Int) (u : TokenUsage) (st : ParseState) :
    (u.has_activity = false → token_usage_step p ts u st = st) ∧
    (u.has_activity = true →
      (token_usage_step p ts u st).prev_totals = some u ∧
      ((computed_delta st u).has_activity = true →
        (token_usage_step p ts u st).events = st.events ++ [(ts.getD p, computed_delta st u)] ∧
        (token_usage_step p ts u st).totals = st.totals.add (computed_delta st u)) ∧
      ((computed_delta st u).has_activity = false →
        (token_usage_step p ts u st).events = st.events ∧
        (token_usage_step p ts u st).totals = st.totals)) := by
  unfold token_usage_step
  dsimp only
  by_cases h1 : u.has_activity = true
  · rw [if_pos h1]
    refine ⟨fun hf => absurd h1 (by simp [hf]), fun _ => ?_⟩
    by_cases h2 : (computed_delta st u).has_activity = true
    · rw [if_pos h2]
      exact ⟨rfl, fun _ => ⟨rfl, rfl⟩, fun hf => absurd h2 (by simp [hf])⟩
    · rw [if_neg h2]
      exact ⟨rfl, fun ht => absurd ht h2, fun _ => ⟨rfl, rfl⟩⟩
  · rw [if_neg h1]
    exact ⟨fun _ => rfl, fun ht => absurd ht h1⟩

theorem computed_delta_activity (st : ParseState) (u : TokenUsage) (hu : u.has_activity = true) :
    (computed_delta st u).has_activity = (computed_delta st u).hasNonzeroField := by
  unfold computed_delta
  cases st.prev_totals with
  | none => rw [hu, hasNonzero_of_has_activity u hu]
  | some prev => exact (hasNonzeroField_eq_has_activity_of_nonneg _ (delta_nonneg u prev)).symm

/-- Claim C4 (counterexample): a `token_count` record whose cumulative
counter has a nonzero — but negative — field (`input_tokens = -5`) is
skipped by the code (`has_activity` tests for a *positive* field, line 192)
and does not advance the cursor, contradicting the claim that any nonzero
cumulative counter replaces the cursor. -/
theorem negative_counter_cursor_counterexample :
    ¬ (∀ (p : Int) (st : ParseState) (item : JObj),
        optIsStr (jGet item "type") "event_msg" = true →
        optIsStr (jGet (payload_of item) "type") "token_count" = true →
        (((record_usage item).hasNonzeroField = false →
            (parse_line p st (some item)).prev_totals = st.prev_totals ∧
            (parse_line p st (some item)).events = st.events ∧
            (parse_line p st (some item)).totals = st.totals) ∧
         ((record_usage item).hasNonzeroField = true →
            (parse_line p st (some item)).prev_totals = some (record_usage item)))) := by
  intro h
  have h2 := (h 0 emptyState negative_field_item (by decide) (by decide)).2 (by decide)
  rw [show (parse_line 0 emptyState (some negative_field_item)).prev_totals = none from by decide]
    at h2
  exact Option.noConfusion h2

/-- Claim C4 (amended): for every `token_count` record, if the cumulative
counter has no positive field (`has_activity` false) the usage handling is
skipped entirely — cursor, events and totals are unchanged; if it has a
positive field the cursor is replaced by it unconditionally, and an Event is
appended if and only if the computed delta has some nonzero field. -/
theorem token_count_cursor_amended (p : Int) (st : ParseState) (item : JObj)
    (hm : optIsStr (jGet item "type") "event_msg" = true)
    (ht : optIsStr (jGet (payload_of item) "type") "token_count" = true) :
    ((record_usage item).has_activity = false →
        (parse_line p st (some item)).prev_totals = st.prev_totals ∧
        (parse_line p st (some item)).events = st.events ∧
        (parse_line p st (some item)).totals = st.totals) ∧
    ((record_usage item).has_activity = true →
        (parse_line p st (some item)).prev_totals = some (record_usage item)) ∧
    ((record_usage item).has_activity = true →
        ((computed_delta st (record_usage item)).hasNonzeroField = true →
          (parse_line p st (some item)).events =
            st.events ++ [((parse_iso8601 (jGet item "timestamp")).getD p,
              computed_delta st (record_usage item))]) ∧
        ((computed_delta st (record_usage item)).hasNonzeroField = false →
          (parse_line p st (some item)).events = st.events)) := by
  rw [parse_line_token p st item hm ht]
  have hdelta :
      computed_delta
          { st with
            last_event_at := updateLast st.last_event_at (parse_iso8601 (jGet item "timestamp")) }
          (record_usage item) =
        computed_delta st (record_usage item) := rfl
  have hspec := token_usage_step_spec p (parse_iso8601 (jGet item "timestamp")) (record_usage item)
    { st with
      last_event_at := updateLast st.last_event_at (parse_iso8601 (jGet item "timestamp")) }
  rw [hdelta] at hspec
  refine ⟨fun hf => ?_, fun htr => ?_, fun htr => ⟨fun hnz => ?_, fun hnz => ?_⟩⟩
  · rw [rate_limits_step_prev, rate_limits_step_events, rate_limits_step_totals, hspec.1 hf]
    exact ⟨rfl, rfl, rfl⟩
  · rw [rate_limits_step_prev, (hspec.2 htr).1]
  · have hact : (computed_delta st (record_usage item)).has_activity = true := by
      rw [computed_delta_activity st _ htr]
      exact hnz
    rw [rate_limits_step_events, ((hspec.2 htr).2.1 hact).1]
  · have hact : (computed_delta st (record_usage item)).has_activity = false := by
      rw [computed_delta_activity st _ htr]
      exact hnz
    rw [rate_limits_step_events, ((hspec.2 htr).2.2 hact).1]

/-- Claim C4 (witness): on the concrete regression file, the third record's
cumulative counter is positive, the cursor is replaced by it, and the zero
delta appends nothing. -/
theorem token_count_cursor_witness :
    ((parse_line 0 ((regression_file.lines.take 2).foldl (parse_line 0) (initState regression_file))
        (some [("timestamp", JVal.str "30"), ("type", JVal.str "event_msg"),
          ("payload", JVal.obj [("type", JVal.str "token_count"),
            ("info", JVal.obj [("total_token_usage",
              JVal.obj [("total_tokens", JVal.int 140)])])])])).prev_totals =
      some (record_usage [("timestamp", JVal.str "30"), ("type", JVal.str "event_msg"),
          ("payload", JVal.obj [("type", JVal.str "token_count"),
            ("info", JVal.obj [("total_token_usage",
              JVal.obj [("total_tokens", JVal.int 140)])])])])) :=
  (token_count_cursor_amended 0
      ((regression_file.lines.take 2).foldl (parse_line 0) (initState regression_file))
      [("timestamp", JVal.str "30"), ("type", JVal.str "event_msg"),
        ("payload", JVal.obj [("type", JVal.str "token_count"),
          ("info", JVal.obj [("total_token_usage",
            JVal.obj [("total_tokens", JVal.int 140)])])])]
      (by decide) (by decide)).2.1 (by decide)

/-! ### Claim C5: used-percent resolution -/

/-- Claim C5: for each configurable window, used-percent resolves by the
ordered chain of lines 274-280 — a reported percent from the latest
rate-limit snapshot's matching sub-window is used as-is; otherwise a set and
positive token limit yields `min(100, total/limit*100)` (in particular a
limit of exactly twice the window total yields 50); otherwise the percent is
`none`.  The last conjunct pins the wiring: the snapshot's session window
uses the `primary` sub-window with the session limit and the weekly window
uses `secondary` with the week limit. -/
theorem used_percent_resolution :
    (∀ (p : Rat) (limit : Option Int) (t : Int), resolve_used_percent (some p) limit t = some p) ∧
    (∀ (l t : Int), 0 < l →
        resolve_used_percent none (some l) t = some (min 100 ((t : Rat) / (l : Rat) * 100))) ∧
    (∀ t : Int, resolve_used_percent none none t = none) ∧
    (∀ (l t : Int), l ≤ 0 → resolve_used_percent none (some l) t = none) ∧
    (∀ t : Int, 0 < t → resolve_used_percent none (some (2 * t)) t = some 50) ∧
    (∀ (sessions : List ParsedSession) (n : Nat) (now tzOff : Int)
        (tzName home cpath : String) (cfg : TrackerConfig),
        (assemble_snapshot sessions n now tzOff tzName home cpath cfg).session_window.used_percent =
          resolve_used_percent
            (safe_float_or_none (jGet
              (safe_dict (jGet ((agg_rate_limits sessions).1.getD []) "primary")) "used_percent"))
            cfg.session_limit_tokens
            (sum_window now (pySortAscBy (fun e => e.1) (all_events_of sessions))
              cfg.session_window_minutes).total_tokens ∧
        (assemble_snapshot sessions n now tzOff tzName home cpath cfg).weekly_window.used_percent =
          resolve_used_percent
            (safe_float_or_none (jGet
              (safe_dict (jGet ((agg_rate_limits sessions).1.getD []) "secondary")) "used_percent"))
            cfg.week_limit_tokens
            (sum_window now (pySortAscBy (fun e => e.1) (all_events_of sessions))
              cfg.week_window_minutes).total_tokens) := by
  refine ⟨fun p limit t => rfl, fun l t hl => ?_, fun t => rfl, fun l t hl => ?_,
    fun t ht => ?_, fun sessions n now tzOff tzName home cpath cfg => ⟨rfl, rfl⟩⟩
  · simp only [resolve_used_percent]
    rw [if_pos hl]
  · simp only [resolve_used_percent]
    rw [if_neg (by omega)]
  · simp only [resolve_used_percent]
    rw [if_pos (by omega : (0 : Int) < 2 * t)]
    have ht' : (t : Rat) ≠ 0 := by
      simpa using Int.ne_of_gt ht
    have hcast : (((2 * t : Int) : Rat)) = 2 * (t : Rat) := by push_cast; ring
    have hval : ((t : Rat) / ((2 * t : Int) : Rat) * 100) = 50 := by
      rw [hcast]
      field_simp
      ring
    rw [hval]
    norm_num

/-- Claim C5 (witness): a reported percent is passed through, a limit of
twice the window total yields exactly 50, and no data yields `none`. -/
theorem used_percent_resolution_witness :
    resolve_used_percent (some 37) (some 4) 9 = some 37 ∧
    resolve_used_percent none (some (2 * 3)) 3 = some 50 ∧
    resolve_used_percent none none 5 = none :=
  ⟨used_percent_resolution.1 37 (some 4) 9,
   used_percent_resolution.2.2.2.2.1 3 (by decide),
   used_percent_resolution.2.2.1 5⟩

/-! ### Claim C6: monotonicity of the rolling windows -/

/-- Claim C6 (counterexample): window sums are NOT monotonic in the window
size for every event stream the parser can produce — a first observation
with a negative `input_tokens` field passes through unclamped (line 193), so
a 6-hour-old event with `input_tokens = -5` makes the 24 h sum smaller than
the 5 h sum in that field. -/
theorem window_monotonic_counterexample :
    negative_field_events = [(978400, { input_tokens := -5, total_tokens := 3 })] ∧
    ¬ TokenUsage.le (sum_window 1000000 negative_field_events (5 * 60))
        (sum_window 1000000 negative_field_events (24 * 60)) := by
  exact ⟨by decide, by decide⟩

/-- Claim C6 (amended): for every fixed event stream whose counters are all
non-negative, and every fixed `now`, the rolling-window sums are monotonic
in the window size fieldwise:
`sum(5h) ≤ sum(24h) ≤ sum(7d) ≤ sum(30d) ≤ sum(all_time)`, where a window
sum adds every event with timestamp ≥ `now` − window. -/
theorem window_sums_monotone_of_nonneg (events : List (Int × TokenUsage)) (now : Int)
    (h : ∀ e ∈ events, e.2.Nonneg) :
    TokenUsage.le (sum_window now events (5 * 60)) (sum_window now events (24 * 60)) ∧
    TokenUsage.le (sum_window now events (24 * 60)) (sum_window now events (7 * 24 * 60)) ∧
    TokenUsage.le (sum_window now events (7 * 24 * 60)) (sum_window now events (30 * 24 * 60)) ∧
    TokenUsage.le (sum_window now events (30 * 24 * 60)) (sum_usage events) :=
  ⟨sum_window_mono now events _ _ (by norm_num) h,
   sum_window_mono now events _ _ (by norm_num) h,
   sum_window_mono now events _ _ (by norm_num) h,
   sum_window_le_all now events _ h⟩

/-- Claim C6 (witness): the monotone chain at a concrete non-negative
stream. -/
theorem window_sums_monotone_witness :
    TokenUsage.le (sum_window 0 [(0, { total_tokens := 2 })] (5 * 60))
      (sum_window 0 [(0, { total_tokens := 2 })] (24 * 60)) ∧
    TokenUsage.le (sum_window 0 [(0, { total_tokens := 2 })] (24 * 60))
      (sum_window 0 [(0, { total_tokens := 2 })] (7 * 24 * 60)) ∧
    TokenUsage.le (sum_window 0 [(0, { total_tokens := 2 })] (7 * 24 * 60))
      (sum_window 0 [(0, { total_tokens := 2 })] (30 * 24 * 60)) ∧
    TokenUsage.le (sum_window 0 [(0, { total_tokens := 2 })] (30 * 24 * 60))
      (sum_usage [(0, { total_tokens := 2 })]) :=
  window_sums_monotone_of_nonneg [(0, { total_tokens := 2 })] 0 (by decide)

/-! ### Claim C7: non-negativity of counters -/

/-- Claim C7 (counterexample): a counter decoded from a log record is NOT
always non-negative — `_safe_int` passes a negative `input_tokens` value
through unclamped. -/
theorem decoded_counter_negative_counterexample :
    ¬ (0 ≤ (TokenUsage.from_mapping
        (some (.obj [("input_tokens", .int (-5))]))).input_tokens) := by
  decide

/-- Claim C7 (amended): a counter decoded from a record whose numeric field
values are non-negative has all five fields ≥ 0; the result of `delta` has
all fields ≥ 0 unconditionally (each field clamps at 0 independently, even
when every field of the subtrahend exceeds the corresponding field of self);
and `add` of two non-negative counters is non-negative. -/
theorem counter_nonneg_amended :
    (∀ v : Option JVal, objValsNonneg v → (TokenUsage.from_mapping v).Nonneg) ∧
    (∀ a previous : TokenUsage, (a.delta previous).Nonneg) ∧
    (∀ a b : TokenUsage, a.Nonneg → b.Nonneg → (a.add b).Nonneg) :=
  ⟨from_mapping_nonneg, delta_nonneg, add_nonneg'⟩

/-- Claim C7 (witness): concrete instances of the three conjuncts, including
a delta whose subtrahend exceeds self in every field. -/
theorem counter_nonneg_witness :
    (TokenUsage.from_mapping (some (.obj [("total_tokens", .int 7)]))).Nonneg ∧
    (TokenUsage.delta { total_tokens := 1 } ⟨9, 9, 9, 9, 9⟩).Nonneg ∧
    (TokenUsage.add { total_tokens := 1 } { total_tokens := 2 }).Nonneg :=
  ⟨counter_nonneg_amended.1 (some (.obj [("total_tokens", .int 7)]))
      (by
        intro kv hkv
        rw [List.mem_singleton] at hkv
        subst hkv
        simp [JVal.numNonneg]),
   counter_nonneg_amended.2.1 { total_tokens := 1 } ⟨9, 9, 9, 9, 9⟩,
   counter_nonneg_amended.2.2 { total_tokens := 1 } { total_tokens := 2 } (by decide) (by decide)⟩

/-! ### Claim C8: when a whole file yields absence -/

/-- Claim C8: parsing a readable session file yields absence exactly when
the accumulated event list is empty and the cumulative total is the all-zero
counter (line 209; when no event exists the totals are necessarily all-zero,
so the `total_tokens == 0` test of the source is equivalent); in particular
a log holding only a `session_meta` record yields no Parsed Session and
contributes nothing to `sessions_count`. -/
theorem parse_absence_iff :
    (∀ (p : Int) (f : SessionFile), f.readable = true →
        (parse_session_file p f = none ↔
          ((f.lines.foldl (parse_line p) (initState f)).events = [] ∧
           (f.lines.foldl (parse_line p) (initState f)).totals = TokenUsage.zero))) ∧
    parse_session_file 0 meta_only_file = none ∧
    (generate_snapshot [meta_only_file] 0 1000 0 "UTC" "home" "cfg" {}).sessions_count = 0 := by
  refine ⟨?_, rfl, rfl⟩
  intro p f hr
  have hinv : StInv (f.lines.foldl (parse_line p) (initState f)) :=
    parse_fold_inv p f.lines (initState f) rfl
  unfold parse_session_file
  rw [hr]
  simp only [if_true]
  constructor
  · intro hnone
    split at hnone
    · rename_i hcond
      rw [Bool.and_eq_true] at hcond
      have hee : (f.lines.foldl (parse_line p) (initState f)).events = [] :=
        List.isEmpty_iff.mp hcond.1
      refine ⟨hee, ?_⟩
      unfold StInv at hinv
      rw [hinv, hee]
      rfl
    · exact Option.noConfusion hnone
  · intro hA
    obtain ⟨he, ht⟩ := hA
    have hcond : ((f.lines.foldl (parse_line p) (initState f)).events.isEmpty &&
        ((f.lines.foldl (parse_line p) (initState f)).totals.total_tokens == 0)) = true := by
      rw [he, ht]
      rfl
    rw [if_pos hcond]

/-- Claim C8 (witness): the absence criterion applied to the concrete
`session_meta`-only log. -/
theorem parse_absence_witness :
    parse_session_file 3 meta_only_file = none ↔
      ((meta_only_file.lines.foldl (parse_line 3) (initState meta_only_file)).events = [] ∧
       (meta_only_file.lines.foldl (parse_line 3) (initState meta_only_file)).totals =
         TokenUsage.zero) :=
  parse_absence_iff.1 3 meta_only_file rfl

/-! ### Claim C9: the top-sessions list -/

/-- Claim C9: the top-sessions list is the stable descending sort of the
sessions by cumulative `total_tokens`, truncated to at most 10 entries — it
never exceeds 10 entries, it is sorted descending, the sort is a permutation
that keeps sessions with equal totals in their original discovery order
(filter stability), every listed session dominates every dropped one, and on
the concrete 15 distinct-total sessions exactly the 10 highest appear in
descending order. -/
theorem top_sessions_spec :
    (∀ sessions : List ParsedSession, (top_sessions_list sessions).length ≤ 10) ∧
    (∀ sessions : List ParsedSession,
        List.Sorted (fun a b => b.totals.total_tokens ≤ a.totals.total_tokens)
          (top_sessions_list sessions)) ∧
    (∀ sessions : List ParsedSession,
        (pySortDescBy (fun s => s.totals.total_tokens) sessions).Perm sessions) ∧
    (∀ (sessions : List ParsedSession) (c : Int),
        (pySortDescBy (fun s => s.totals.total_tokens) sessions).filter
            (fun s => s.totals.total_tokens == c) =
          sessions.filter (fun s => s.totals.total_tokens == c)) ∧
    (∀ (sessions : List ParsedSession) (s t : ParsedSession),
        s ∈ top_sessions_list sessions →
        t ∈ (pySortDescBy (fun s => s.totals.total_tokens) sessions).drop 10 →
        t.totals.total_tokens ≤ s.totals.total_tokens) ∧
    (top_sessions_list fifteen_sessions).map (fun s => s.totals.total_tokens) =
      [15, 14, 13, 12, 11, 10, 9, 8, 7, 6] ∧
    (top_sessions_list fifteen_sessions).map (fun s => s.session_id) =
      ["s3", "s8", "s12", "s6", "s10", "s14", "s5", "s11", "s1", "s15"] ∧
    (top_sessions_list tie_sessions).map (fun s => s.session_id) = ["b", "a", "c"] := by
  refine ⟨?_, ?_, fun sessions => pySort_perm _ sessions,
    fun sessions c => pySortDescBy_filter_stable _ c sessions, ?_, by decide, by decide, by decide⟩
  · intro sessions
    rw [top_sessions_list, List.length_take]
    exact min_le_left _ _
  · intro sessions
    exact List.Pairwise.sublist (List.take_sublist _ _) (pySortDescBy_sorted _ sessions)
  · intro sessions s t hs ht
    exact List.Sorted.rel_of_mem_take_of_mem_drop (pySortDescBy_sorted _ sessions) hs ht

/-- Claim C9 (witness): on the fifteen concrete sessions, the bound and the
dominance fact at the top and the first dropped session. -/
theorem top_sessions_witness :
    (top_sessions_list fifteen_sessions).length ≤ 10 ∧
    (totSess "s7" 5).totals.total_tokens ≤ (totSess "s3" 15).totals.total_tokens :=
  ⟨top_sessions_spec.1 fifteen_sessions,
   top_sessions_spec.2.2.2.2.1 fifteen_sessions (totSess "s3" 15) (totSess "s7" 5)
     (by
       rw [show top_sessions_list fifteen_sessions =
         [totSess "s3" 15, totSess "s8" 14, totSess "s12" 13, totSess "s6" 12,
          totSess "s10" 11, totSess "s14" 10, totSess "s5" 9, totSess "s11" 8,
          totSess "s1" 7, totSess "s15" 6] from rfl]
       exact List.mem_cons_self _ _)
     (by
       rw [show (pySortDescBy (fun s => s.totals.total_tokens) fifteen_sessions).drop 10 =
         [totSess "s7" 5, totSess "s13" 4, totSess "s2" 3, totSess "s9" 2,
          totSess "s4" 1] from rfl]
       exact List.mem_cons_self _ _)⟩

/-! ### Claim C10: `token_count` records advance the last-seen timestamp -/

/-- Claim C10: every `event_msg`/`token_count` record with a parsable
timestamp newer than the session's current last-seen timestamp advances the
last-seen timestamp (lines 185-186), even when its cumulative counter is
zero or absent and hence no Event is produced and no cursor advances;
consequently the most-recently-active session can be one whose most recent
record contributed no usage, as on the concrete two-session scenario where
session B wins `active_session` through an empty `token_count` record. -/
theorem token_count_advances_last_seen :
    (∀ (p t : Int) (st : ParseState) (item : JObj),
        optIsStr (jGet item "type") "event_msg" = true →
        optIsStr (jGet (payload_of item) "type") "token_count" = true →
        parse_iso8601 (jGet item "timestamp") = some t →
        (∀ u, st.last_event_at = some u → u < t) →
        (parse_line p st (some item)).last_event_at = some t) ∧
    (generate_snapshot [activity_file_a, activity_file_b] 0 1000 0 "UTC" "home" "cfg"
        {}).active_session.session_id = some "rollout-b" ∧
    (generate_snapshot [activity_file_a, activity_file_b] 0 1000 0 "UTC" "home" "cfg"
        {}).active_session.last_event_at = some 200 ∧
    (parse_session_file 0 activity_file_b).map (fun s => s.events.map (fun e => e.1)) =
      some [50] ∧
    (activity_file_b.lines.foldl (parse_line 0) (initState activity_file_b)).last_event_at =
      some 200 := by
  refine ⟨?_, by decide, by decide, by decide, by decide⟩
  intro p t st item hm htc hts hnew
  rw [parse_line_token p st item hm htc, rate_limits_step_last, token_usage_step_last]
  show updateLast st.last_event_at (parse_iso8601 (jGet item "timestamp")) = some t
  rw [hts]
  unfold updateLast
  cases hl : st.last_event_at with
  | none => rfl
  | some u =>
    dsimp only
    rw [if_pos (hnew u hl)]

/-- Claim C10 (witness): a `token_count` record at instant 200 whose counter
is absent still advances the last-seen timestamp of a fresh state. -/
theorem token_count_advances_witness :
    (parse_line 0 emptyState (some zero_count_item)).last_event_at = some 200 :=
  token_count_advances_last_seen.1 0 200 emptyState zero_count_item rfl rfl rfl
    (fun _ h => Option.noConfusion h)
